import Mathlib

/-!
Verification of the VyaparSaathi backend test utilities
(`packages/backend/tests/utils.py` and `packages/backend/tests/strategies.py`)
against their natural-language specification.

Python values are shallowly embedded as the mutual inductive family
`PyVal` / `PyList` / `PyDict` (a Python `dict` is modelled as an ordered
association list, matching Python's insertion-ordered dictionaries).
Python floats are modelled as rationals, `datetime` values as calendar
dates (plus an explicit integer timestamp where a function reads the
clock), and exceptions as `Option`/`Bool` results.
-/

mutual
/-- Shallow embedding of the Python values that flow through the test
utilities: `None`, `bool`, `int`, `float` (modelled as a rational),
`str`, `list` and `dict`. -/
inductive PyVal where
  | vnone : PyVal
  | vbool (b : Bool) : PyVal
  | vint (n : ℤ) : PyVal
  | vfloat (q : ℚ) : PyVal
  | vstr (s : String) : PyVal
  | vlist (l : PyList) : PyVal
  | vdict (d : PyDict) : PyVal
deriving DecidableEq

/-- A Python list of `PyVal`s. -/
inductive PyList where
  | nil : PyList
  | cons (v : PyVal) (tl : PyList) : PyList
deriving DecidableEq

/-- A Python dict with string keys, as an insertion-ordered association
list. -/
inductive PyDict where
  | nil : PyDict
  | cons (k : String) (v : PyVal) (tl : PyDict) : PyDict
deriving DecidableEq
end

open PyVal

/-- Lookup of a key in a Python dict (`obj[field]` / `obj.get(field)`). -/
def PyDict.get? : PyDict → String → Option PyVal
  | .nil, _ => none
  | .cons k v tl, f => if k = f then some v else PyDict.get? tl f

/-- Python's `field in obj` membership test on a dict. -/
def PyDict.hasKey (d : PyDict) (f : String) : Bool :=
  (d.get? f).isSome

/-- Python's `obj.get(field, default)`. -/
def PyDict.getD (d : PyDict) (f : String) (dflt : PyVal) : PyVal :=
  (d.get? f).getD dflt

/-- Python's `list(record.keys())` in insertion order. -/
def PyDict.keys : PyDict → List String
  | .nil => []
  | .cons k _ tl => k :: PyDict.keys tl

/-- Length of an embedded Python list (`len`). -/
def PyList.length : PyList → ℕ
  | .nil => 0
  | .cons _ tl => PyList.length tl + 1

/-- Conjunction of a boolean predicate over an embedded Python list
(the `for` loop of asserts in `assert_forecast_result_valid`). -/
def PyList.all (p : PyVal → Bool) : PyList → Bool
  | .nil => true
  | .cons v tl => p v && PyList.all p tl

/-- Decimal digits of the fractional part of `fr / den`, produced by
repeated multiplication by 10 until the remainder vanishes (with fuel).
Models CPython `str(float)` on floats whose shortest repr is a
terminating decimal, which is every value the test suite feeds it. -/
def fracDigits (den : ℕ) : ℕ → ℕ → String
  | 0, _ => ""
  | _ + 1, 0 => ""
  | fuel + 1, fr => toString (fr * 10 / den) ++ fracDigits den fuel (fr * 10 % den)

/-- Model of CPython `str(float)` for a float embedded as a rational. -/
def floatStr (q : ℚ) : String :=
  let sign := if q < 0 then "-" else ""
  let n := q.num.natAbs
  let d := q.den
  if n % d = 0 then sign ++ toString (n / d) ++ ".0"
  else sign ++ toString (n / d) ++ "." ++ fracDigits d 17 (n % d)

/-- Model of CPython `repr(str)`: quote with a single quote (double quote
when the text contains a single quote but no double quote), escaping
backslashes, quotes and the common control characters. -/
def pyQuoteStr (s : String) : String :=
  let hasSingle := s.data.contains (Char.ofNat 39)
  let hasDouble := s.data.contains (Char.ofNat 34)
  let q : Char := if hasSingle && !hasDouble then Char.ofNat 34 else Char.ofNat 39
  let esc := s.data.foldr
    (fun c acc =>
      if c = '\\' then '\\' :: '\\' :: acc
      else if c = q then '\\' :: c :: acc
      else if c = '\n' then '\\' :: 'n' :: acc
      else if c = '\t' then '\\' :: 't' :: acc
      else if c = '\r' then '\\' :: 'r' :: acc
      else c :: acc) []
  String.mk (q :: esc ++ [q])

mutual
/-- Model of CPython `repr` on embedded values. -/
def pyRepr : PyVal → String
  | vnone => "None"
  | vbool true => "True"
  | vbool false => "False"
  | vint n => toString n
  | vfloat q => floatStr q
  | vstr s => pyQuoteStr s
  | vlist l => "[" ++ String.intercalate ", " (pyReprList l) ++ "]"
  | vdict d => "\x7b" ++ String.intercalate ", " (pyReprDict d) ++ "\x7d"

/-- Elementwise `repr` of a Python list. -/
def pyReprList : PyList → List String
  | .nil => []
  | .cons v tl => pyRepr v :: pyReprList tl

/-- Entrywise `repr` of a Python dict, rendered as `key: value`. -/
def pyReprDict : PyDict → List String
  | .nil => []
  | .cons k v tl => (pyQuoteStr k ++ ": " ++ pyRepr v) :: pyReprDict tl
end

/-- Model of CPython `str(value)`: identical to `repr` except on
strings, which are returned verbatim. -/
def pyStr : PyVal → String
  | vstr s => s
  | v => pyRepr v

/-! ### utils.py: range and field validators -/

/-- utils.py `is_in_range`: `min_value <= value <= max_value`, a chained
comparison, i.e. both bounds inclusive. -/
def is_in_range (value min_value max_value : ℚ) : Bool :=
  decide (min_value ≤ value) && decide (value ≤ max_value)

/-- utils.py `is_valid_confidence`: range check against `[0.0, 1.0]`. -/
def is_valid_confidence (confidence : ℚ) : Bool :=
  is_in_range confidence 0 1

/-- utils.py `is_valid_forecast_horizon`: range check against `[7, 14]`. -/
def is_valid_forecast_horizon (horizon : ℚ) : Bool :=
  is_in_range horizon 7 14

/-- utils.py `has_required_fields`:
`all(field in obj and obj[field] is not None for field in required_fields)`. -/
def has_required_fields (obj : PyDict) (required_fields : List String) : Bool :=
  required_fields.all fun f => obj.hasKey f && (obj.get? f != some vnone)

/-- A Python float extended with positive infinity, the codomain of
`calculate_percentage_difference`. -/
inductive PFloat where
  | fin (q : ℚ) : PFloat
  | inf : PFloat
deriving DecidableEq

/-- utils.py `calculate_percentage_difference`: returns `inf` for a zero
baseline with nonzero comparison, `0.0` for a zero baseline with zero
comparison, and `((comparison - baseline) / baseline) * 100` otherwise. -/
def calculate_percentage_difference (baseline comparison : ℚ) : PFloat :=
  if baseline = 0 then
    if comparison ≠ 0 then PFloat.inf else PFloat.fin 0
  else
    PFloat.fin ((comparison - baseline) / baseline * 100)

/-! ### utils.py: CSV helpers -/

/-- utils.py `create_csv_content`: header line, then newline-joined rows of
comma-joined fields (the final f-string is `header_line ++ "\n" ++ data_lines`). -/
def create_csv_content (headers : List String) (rows : List (List String)) : String :=
  let header_line := String.intercalate "," headers
  let data_lines := String.intercalate "\n" (rows.map (String.intercalate ","))
  header_line ++ "\n" ++ data_lines

/-- utils.py `create_sales_csv`: returns the bare header for an empty record
list, otherwise takes the first record's keys as headers and renders
`str(record.get(h, ""))` for every record and header. -/
def create_sales_csv (records : List PyDict) : String :=
  match records with
  | [] => "date,sku,quantity\n"
  | r :: _ =>
    let headers := r.keys
    let rows := records.map fun record => headers.map fun h => pyStr (record.getD h (vstr ""))
    create_csv_content headers rows

/-! ### utils.py: DynamoDB item formatting -/

mutual
/-- utils.py `mock_dynamodb_item.format_value`. The source tests
`isinstance(value, str)` first, then `isinstance(value, (int, float))`,
then `isinstance(value, bool)`, then dict, list and `None`. Because
Python's `bool` is a subclass of `int`, a boolean satisfies the
`(int, float)` test, so the `bool` branch is unreachable and a boolean is
rendered as `{"N": str(value)}` with `str(True) = "True"`. -/
def format_value : PyVal → PyVal
  | vstr s => vdict (.cons "S" (vstr s) .nil)
  | vint n => vdict (.cons "N" (vstr (pyStr (vint n))) .nil)
  | vfloat q => vdict (.cons "N" (vstr (pyStr (vfloat q))) .nil)
  | vbool b => vdict (.cons "N" (vstr (pyStr (vbool b))) .nil)
  | vdict d => vdict (.cons "M" (vdict (formatPyDict d)) .nil)
  | vlist l => vdict (.cons "L" (vlist (formatPyList l)) .nil)
  | vnone => vdict (.cons "NULL" (vbool true) .nil)

/-- The list comprehension `[format_value(v) for v in value]`. -/
def formatPyList : PyList → PyList
  | .nil => .nil
  | .cons v tl => .cons (format_value v) (formatPyList tl)

/-- The dict comprehension `{k: format_value(v) for k, v in value.items()}`. -/
def formatPyDict : PyDict → PyDict
  | .nil => .nil
  | .cons k v tl => .cons k (format_value v) (formatPyDict tl)
end

/-- utils.py `mock_dynamodb_item`:
`{k: format_value(v) for k, v in item.items()}`. -/
def mock_dynamodb_item (item : PyDict) : PyDict :=
  formatPyDict item

/-! ### Calendar dates and the `datetime.fromisoformat` model

A Python `datetime` date part is a proleptic-Gregorian calendar date.
`datetime.fromisoformat` is modelled after CPython's implementation for
Python < 3.11 (the version the `replace("Z", "+00:00")` workaround in
`is_valid_date_string` targets): the string must be
`YYYY-MM-DD[*HH[:MM[:SS[.fff[fff]]]][(+|-)HH:MM[:SS[.ffffff]]]]`
with a real calendar date, in-range time components, and a timezone
offset strictly below 24 hours. -/

/-- Calendar date, the date part of a Python `datetime`. -/
structure Date where
  year : ℕ
  month : ℕ
  day : ℕ
deriving DecidableEq

/-- Gregorian leap-year rule, as in CPython's `datetime` module. -/
def isLeapYear (y : ℕ) : Bool :=
  (y % 4 == 0 && y % 100 != 0) || (y % 400 == 0)

/-- Number of days in a month of a given year (`calendar` rule used by
`datetime`). -/
def daysInMonth (y m : ℕ) : ℕ :=
  if m = 2 then (if isLeapYear y then 29 else 28)
  else if m = 4 ∨ m = 6 ∨ m = 9 ∨ m = 11 then 30
  else 31

/-- A date the `datetime.date` constructor accepts (year bounds are
checked separately where they matter). -/
def validDate (d : Date) : Bool :=
  1 ≤ d.year && 1 ≤ d.month && d.month ≤ 12 && 1 ≤ d.day && d.day ≤ daysInMonth d.year d.month

/-- The calendar date one day earlier (`dt - timedelta(days=1)` on the
date part of a naive datetime). -/
def prevDay : Date → Date
  | ⟨y, m, d⟩ =>
    if 2 ≤ d then ⟨y, m, d - 1⟩
    else if 2 ≤ m then ⟨y, m - 1, daysInMonth y (m - 1)⟩
    else ⟨y - 1, 12, 31⟩

/-- The calendar date `n` days earlier (`dt - timedelta(days=n)` on the
date part of a naive datetime). -/
def subDays (dt : Date) : ℕ → Date
  | 0 => dt
  | n + 1 => subDays (prevDay dt) n

/-- The ASCII digit character for `n % 10`. -/
def digitChar (n : ℕ) : Char :=
  Char.ofNat (48 + n % 10)

/-- Numeric value of an ASCII digit character. -/
def digitVal (c : Char) : ℕ :=
  c.toNat - 48

/-- Two-digit zero-padded decimal rendering, as chars. -/
def render2 (n : ℕ) : List Char :=
  [digitChar (n / 10), digitChar n]

/-- Four-digit zero-padded decimal rendering, as chars. -/
def render4 (n : ℕ) : List Char :=
  [digitChar (n / 1000), digitChar (n / 100), digitChar (n / 10), digitChar n]

/-- Model of `date.strftime("%Y-%m-%d")` for four-digit years. -/
def strftimeYmd (dt : Date) : String :=
  String.mk (render4 dt.year ++ '-' :: (render2 dt.month ++ '-' :: render2 dt.day))

/-- Parse exactly two ASCII digits, returning their value and the rest. -/
def parse2 : List Char → Option (ℕ × List Char)
  | c1 :: c2 :: rest =>
    if c1.isDigit && c2.isDigit then some (10 * digitVal c1 + digitVal c2, rest) else none
  | _ => none

/-- Parse exactly four ASCII digits, returning their value and the rest. -/
def parse4 : List Char → Option (ℕ × List Char)
  | c1 :: c2 :: c3 :: c4 :: rest =>
    if c1.isDigit && c2.isDigit && c3.isDigit && c4.isDigit then
      some (1000 * digitVal c1 + 100 * digitVal c2 + 10 * digitVal c3 + digitVal c4, rest)
    else none
  | _ => none

/-- Every character is an ASCII digit. -/
def allDigits (cs : List Char) : Bool :=
  cs.all Char.isDigit

/-- A fractional-second field of `datetime.fromisoformat` (< 3.11):
exactly 3 or 6 digits. -/
def validFrac (cs : List Char) : Bool :=
  (cs.length == 3 || cs.length == 6) && allDigits cs

/-- Range check performed by the `time` constructor. -/
def timeOk (h m s : ℕ) : Bool :=
  h ≤ 23 && m ≤ 59 && s ≤ 59

/-- The `timezone` constructor accepts offsets strictly below 24 hours
(the offset components themselves are only 2 digits each, not
individually range-checked). -/
def offsetOk (th tm ts : ℕ) : Bool :=
  th * 3600 + tm * 60 + ts < 86400

/-- Timezone tail of `datetime.fromisoformat` (< 3.11), after the sign:
`HH:MM[:SS[.ffffff]]`, with the offset strictly below 24 hours. -/
def validTz (cs : List Char) : Bool :=
  match parse2 cs with
  | some (th, ':' :: r1) =>
    match parse2 r1 with
    | some (tm, []) => offsetOk th tm 0
    | some (tm, ':' :: r2) =>
      match parse2 r2 with
      | some (ts, []) => offsetOk th tm ts
      | some (ts, '.' :: r3) => r3.length == 6 && allDigits r3 && offsetOk th tm ts
      | _ => false
    | _ => false
  | _ => false

/-- Time-of-day tail of `datetime.fromisoformat` (< 3.11):
`HH[:MM[:SS[.fff[fff]]]]` with an optional signed timezone suffix after
any component. -/
def validTime (cs : List Char) : Bool :=
  match parse2 cs with
  | some (h, rest) =>
    match rest with
    | [] => timeOk h 0 0
    | '+' :: r => timeOk h 0 0 && validTz r
    | '-' :: r => timeOk h 0 0 && validTz r
    | ':' :: r1 =>
      match parse2 r1 with
      | some (m, []) => timeOk h m 0
      | some (m, '+' :: r) => timeOk h m 0 && validTz r
      | some (m, '-' :: r) => timeOk h m 0 && validTz r
      | some (m, ':' :: r2) =>
        match parse2 r2 with
        | some (s, []) => timeOk h m s
        | some (s, '+' :: r) => timeOk h m s && validTz r
        | some (s, '-' :: r) => timeOk h m s && validTz r
        | some (s, '.' :: r3) =>
          match r3.splitOnP (fun c => c = '+' || c = '-') with
          | [f] => validFrac f && timeOk h m s
          | [f, tz] => validFrac f && timeOk h m s && validTz tz
          | _ => false
        | _ => false
      | _ => false
    | _ => false
  | _ => false

/-- Model of `datetime.fromisoformat` for Python < 3.11: a
`YYYY-MM-DD` date (year at least 1, real calendar date), optionally
followed by a single separator character (any character) and a valid
time-of-day tail. Returns the parsed date part on success, `none` where
CPython raises `ValueError`. -/
def fromisoformat (s : String) : Option Date :=
  match parse4 s.data with
  | some (y, '-' :: r1) =>
    match parse2 r1 with
    | some (mo, '-' :: r2) =>
      match parse2 r2 with
      | some (dy, rest) =>
        if 1 ≤ y && 1 ≤ mo && mo ≤ 12 && 1 ≤ dy && dy ≤ daysInMonth y mo then
          match rest with
          | [] => some ⟨y, mo, dy⟩
          | _ :: timeRest => if validTime timeRest then some ⟨y, mo, dy⟩ else none
        else none
      | _ => none
    | _ => none
  | _ => none

/-- Python `date_string.replace("Z", "+00:00")`: every occurrence of the
single character `Z` is replaced. -/
def pyReplaceZ (s : String) : String :=
  String.mk (s.data.foldr
    (fun c acc => if c = 'Z' then '+' :: '0' :: '0' :: ':' :: '0' :: '0' :: acc else c :: acc) [])

/-- utils.py `is_valid_date_string`: rewrites `Z` to `+00:00`, attempts
`datetime.fromisoformat`, and converts the raised `ValueError` (modelled
by `none`) into `False`. -/
def is_valid_date_string (date_string : String) : Bool :=
  (fromisoformat (pyReplaceZ date_string)).isSome

/-! ### utils.py: festival periods and date ranges -/

/-- Microseconds per day, the resolution of a Python `timedelta`. -/
def usPerDay : ℤ := 86400000000

/-- utils.py `is_in_festival_period`. Datetimes are embedded as integer
microsecond timestamps (Python naive datetimes compare as points on a
linear time axis); `timedelta(days=duration)` adds `duration * usPerDay`.
The chained comparison `festival_date <= date <= festival_end` includes
both endpoints. -/
def is_in_festival_period (date festival_date duration : ℤ) : Bool :=
  let festival_end := festival_date + duration * usPerDay
  decide (festival_date ≤ date) && decide (date ≤ festival_end)

/-- utils.py `generate_date_range`: the `%Y-%m-%d` renderings of
`start_date + timedelta(days=i)` for `i < days`. Forward day stepping is
embedded as the inverse of `prevDay` at the rendering level: the i-th
entry renders `addDays start_date i`. -/
def nextDay : Date → Date
  | ⟨y, m, d⟩ =>
    if d < daysInMonth y m then ⟨y, m, d + 1⟩
    else if m < 12 then ⟨y, m + 1, 1⟩
    else ⟨y + 1, 1, 1⟩

/-- The calendar date `n` days later. -/
def addDays (dt : Date) : ℕ → Date
  | 0 => dt
  | n + 1 => addDays (nextDay dt) n

/-- utils.py `generate_date_range`. -/
def generate_date_range (start_date : Date) (days : ℕ) : List String :=
  (List.range days).map fun i => strftimeYmd (addDays start_date i)

/-! ### utils.py: mock AWS objects -/

/-- UTF-8 encoding of a single character, as byte values. -/
def utf8EncodeChar (c : Char) : List ℕ :=
  let n := c.toNat
  if n < 128 then [n]
  else if n < 2048 then [192 + n / 64, 128 + n % 64]
  else if n < 65536 then [224 + n / 4096, 128 + n / 64 % 64, 128 + n % 64]
  else [240 + n / 262144, 128 + n / 4096 % 64, 128 + n / 64 % 64, 128 + n % 64]

/-- Python `content.encode("utf-8")`, as a byte list. -/
def utf8Encode (s : String) : List ℕ :=
  (s.data.map utf8EncodeChar).flatten

/-- Shape of the dictionary returned by utils.py `mock_s3_object`. -/
structure S3Object where
  Bucket : String
  Key : String
  Body : List ℕ
  ContentLength : ℕ
  ContentType : String
  LastModified : ℤ
deriving DecidableEq

/-- utils.py `mock_s3_object`. The call `datetime.now()` reads the
ambient clock; the embedding makes that input explicit as the `now`
timestamp argument. `ContentLength` is `len(content)`, the character
count of the string (not the byte count of the encoded body). -/
def mock_s3_object (bucket key content : String) (now : ℤ) : S3Object :=
  { Bucket := bucket
    Key := key
    Body := utf8Encode content
    ContentLength := content.length
    ContentType := "text/csv"
    LastModified := now }

/-! ### utils.py: API Gateway event -/

/-- Hexadecimal digit character for `n % 16`, lowercase. -/
def hexChar (n : ℕ) : Char :=
  if n % 16 < 10 then Char.ofNat (48 + n % 16) else Char.ofNat (87 + n % 16)

/-- Four-digit lowercase hex rendering, for `\uXXXX` escapes. -/
def hex4 (n : ℕ) : List Char :=
  [hexChar (n / 4096), hexChar (n / 256), hexChar (n / 16), hexChar n]

/-- JSON string quoting as in `json.dumps` with its default
`ensure_ascii=True`: control characters and all non-ASCII characters are
escaped, astral characters as surrogate pairs. -/
def jsonQuote (s : String) : String :=
  let esc := s.data.foldr
    (fun c acc =>
      let n := c.toNat
      if c = '"' then '\\' :: '"' :: acc
      else if c = '\\' then '\\' :: '\\' :: acc
      else if c = '\n' then '\\' :: 'n' :: acc
      else if c = '\t' then '\\' :: 't' :: acc
      else if c = '\r' then '\\' :: 'r' :: acc
      else if n < 32 then '\\' :: 'u' :: hex4 n ++ acc
      else if n < 127 then c :: acc
      else if n < 65536 then '\\' :: 'u' :: hex4 n ++ acc
      else
        '\\' :: 'u' :: hex4 (55296 + (n - 65536) / 1024) ++
          ('\\' :: 'u' :: hex4 (56320 + (n - 65536) % 1024) ++ acc))
    []
  String.mk ('"' :: esc ++ ['"'])

mutual
/-- Model of `json.dumps` with default separators (`", "` and `": "`). -/
def jsonDumps : PyVal → String
  | vnone => "null"
  | vbool true => "true"
  | vbool false => "false"
  | vint n => toString n
  | vfloat q => floatStr q
  | vstr s => jsonQuote s
  | vlist l => "[" ++ String.intercalate ", " (jsonDumpsList l) ++ "]"
  | vdict d => "\x7b" ++ String.intercalate ", " (jsonDumpsDict d) ++ "\x7d"

/-- Elementwise `json.dumps` of a list. -/
def jsonDumpsList : PyList → List String
  | .nil => []
  | .cons v tl => jsonDumps v :: jsonDumpsList tl

/-- Entrywise `json.dumps` of a dict. -/
def jsonDumpsDict : PyDict → List String
  | .nil => []
  | .cons k v tl => (jsonQuote k ++ ": " ++ jsonDumps v) :: jsonDumpsDict tl
end

/-- The `requestContext` block of the mock event: request id and the
authorizer claim subject. -/
structure RequestContext where
  requestId : String
  authorizerClaimsSub : String
deriving DecidableEq

/-- Shape of the dictionary returned by utils.py
`create_api_gateway_event`. -/
structure ApiGatewayEvent where
  httpMethod : String
  path : String
  pathParameters : List (String × String)
  queryStringParameters : List (String × String)
  headers : List (String × String)
  body : Option String
  requestContext : RequestContext
  isBase64Encoded : Bool
deriving DecidableEq

/-- utils.py `create_api_gateway_event`. The body field is
`json.dumps(body) if body else None`: Python truthiness makes both
`None` and the empty dict fall to `None`. Parameter dicts default via
`x or {}` (`None` and the empty dict both yield the empty dict), and
`headers or {...}` replaces both `None` and an empty dict by the default
content-type header. -/
def create_api_gateway_event (body : Option PyDict)
    (path_parameters query_parameters headers : Option (List (String × String)))
    (http_method : String) (path : String) : ApiGatewayEvent :=
  { httpMethod := http_method
    path := path
    pathParameters := path_parameters.getD []
    queryStringParameters := query_parameters.getD []
    headers :=
      match headers with
      | some h => if h.isEmpty then [("Content-Type", "application/json")] else h
      | none => [("Content-Type", "application/json")]
    body :=
      match body with
      | some d => if d = PyDict.nil then none else some (jsonDumps (vdict d))
      | none => none
    requestContext := { requestId := "test-request-id", authorizerClaimsSub := "test-user-123" }
    isBase64Encoded := false }

/-! ### utils.py: assertion-based validators

Python `assert` raises `AssertionError` on failure; a chain of asserts
is modelled as a boolean that is `true` exactly when the whole chain
runs to completion. A comparison on operands Python cannot order raises
`TypeError`, which equally aborts the chain, so it is also modelled as
`false`. -/

/-- Numeric view of a Python value, as used by an order comparison
against a float: `int`, `float` and `bool` (a numeric type in Python)
participate; any other operand raises `TypeError`, modelled as `none`. -/
def asNum : PyVal → Option ℚ
  | vint n => some (n : ℚ)
  | vfloat q => some q
  | vbool b => some (if b then 1 else 0)
  | _ => none

/-- The per-prediction assert block of utils.py
`assert_forecast_result_valid`: required fields, a valid date string
(`is_valid_date_string` itself returns `False` on a non-string, since
the `AttributeError` is caught), a non-negative forecast and bounds
bracketing it. A non-dict prediction cannot satisfy the field lookup and
is modelled as a failure. -/
def predictionOk (p : PyVal) : Bool :=
  match p with
  | vdict pd =>
    has_required_fields pd ["date", "demandForecast", "lowerBound", "upperBound"]
    && (match pd.get? "date" with
        | some (vstr s) => is_valid_date_string s
        | _ => false)
    && (match (pd.get? "demandForecast").bind asNum with
        | some df =>
          decide (0 ≤ df)
          && (match (pd.get? "lowerBound").bind asNum with
              | some lb => decide (lb ≤ df)
              | none => false)
          && (match (pd.get? "upperBound").bind asNum with
              | some ub => decide (df ≤ ub)
              | none => false)
        | none => false)
  | _ => false

/-- utils.py `assert_forecast_result_valid`: required fields, confidence
in `[0, 1]`, methodology among `ml`/`pattern`/`hybrid` (Python `in` on a
string list is plain equality search, yielding `False` without error on
a non-string), a nonempty list of predictions, each passing
`predictionOk`. -/
def assert_forecast_result_valid (forecast : PyDict) : Bool :=
  has_required_fields forecast ["sku", "category", "predictions", "confidence", "methodology"]
  && (match (forecast.get? "confidence").bind asNum with
      | some q => is_valid_confidence q
      | none => false)
  && (match forecast.get? "methodology" with
      | some (vstr s) => ["ml", "pattern", "hybrid"].contains s
      | _ => false)
  && (match forecast.get? "predictions" with
      | some (vlist l) => decide (0 < l.length) && PyList.all predictionOk l
      | _ => false)

/-! ### strategies.py

Hypothesis strategies are embedded as deterministic functions of an
explicit draw sequence: each `draw(...)` becomes an argument, and each
primitive strategy maps its raw draw into the range the Hypothesis API
documents for it (`st.integers(lo, hi)` and `st.floats(lo, hi)` return
values inside `[lo, hi]`; `st.sampled_from(options)` returns one of the
options; `st.text(...)` returns a string, passed through directly). -/

/-- Hypothesis `st.integers(min_value=lo, max_value=hi)` applied to a raw
draw: an arbitrary value folded into `[lo, hi]`. -/
def st_integers (lo hi raw : ℕ) : ℕ :=
  lo + raw % (hi - lo + 1)

/-- Hypothesis `st.sampled_from(options)` applied to a raw draw. -/
def st_sampled_from (options : List String) (raw : ℕ) : String :=
  options.getD (raw % options.length) ""

/-- Hypothesis `st.floats(min_value=lo, max_value=hi, allow_nan=False,
allow_infinity=False)` applied to a raw draw: an arbitrary rational
clamped into `[lo, hi]`. -/
def st_floats (lo hi raw : ℚ) : ℚ :=
  max lo (min hi raw)

/-- strategies.py `sales_record_strategy`. The call `datetime.now()`
reads the ambient clock, made explicit as the `now` argument (its date
part); `date` is `now - timedelta(days=days_ago)` rendered with
`strftime("%Y-%m-%d")`, `sku` a string drawn from `st.text` over
uppercase letters and digits, `quantity` an integer drawn from
`[1, 1000]`, `category` sampled from five category names, and `price` a
float drawn from `[1.0, 10000.0]`. -/
def sales_record_strategy (now : Date) (rawDays : ℕ) (rawSku : String)
    (rawQty : ℕ) (rawCat : ℕ) (rawPrice : ℚ) : PyDict :=
  let days_ago := st_integers 0 730 rawDays
  let date := subDays now days_ago
  .cons "date" (vstr (strftimeYmd date))
    (.cons "sku" (vstr rawSku)
      (.cons "quantity" (vint (st_integers 1 1000 rawQty))
        (.cons "category"
          (vstr (st_sampled_from ["grocery", "apparel", "electronics", "home", "beauty"] rawCat))
          (.cons "price" (vfloat (st_floats 1 10000 rawPrice)) .nil))))

/-! ## Claim theorems -/

/-- C1: evaluation of `mock_dynamodb_item` at the input
`{"a": 1, "b": "x", "c": True, "d": None}` from the specification. The
code renders the boolean as `{"N": "True"}` — `isinstance(True, int)`
holds in Python, so the `(int, float)` branch fires before the
unreachable `bool` branch — and therefore the result differs from the
specified output `{"c": {"BOOL": True}}` at key `c` while agreeing at
the other three keys. -/
theorem C1_mock_dynamodb_item_bool_tag :
    mock_dynamodb_item
        (.cons "a" (vint 1) (.cons "b" (vstr "x") (.cons "c" (vbool true) (.cons "d" vnone .nil)))) =
      .cons "a" (vdict (.cons "N" (vstr "1") .nil))
        (.cons "b" (vdict (.cons "S" (vstr "x") .nil))
          (.cons "c" (vdict (.cons "N" (vstr "True") .nil))
            (.cons "d" (vdict (.cons "NULL" (vbool true) .nil)) .nil)))
    ∧ mock_dynamodb_item
        (.cons "a" (vint 1) (.cons "b" (vstr "x") (.cons "c" (vbool true) (.cons "d" vnone .nil)))) ≠
      .cons "a" (vdict (.cons "N" (vstr "1") .nil))
        (.cons "b" (vdict (.cons "S" (vstr "x") .nil))
          (.cons "c" (vdict (.cons "BOOL" (vbool true) .nil))
            (.cons "d" (vdict (.cons "NULL" (vbool true) .nil)) .nil))) := by
  constructor
  · decide
  · decide

/-- C3: `calculate_percentage_difference` with zero baseline returns
`0.0` when the comparison is also zero and positive infinity when the
comparison is nonzero, in particular at the comparison value `5`. -/
theorem C3_percentage_difference_zero_baseline :
    calculate_percentage_difference 0 0 = PFloat.fin 0 ∧
    calculate_percentage_difference 0 5 = PFloat.inf ∧
    ∀ c : ℚ, c ≠ 0 → calculate_percentage_difference 0 c = PFloat.inf := by
  refine ⟨by simp [calculate_percentage_difference], ?_, ?_⟩
  · norm_num [calculate_percentage_difference]
  · intro c hc
    simp [calculate_percentage_difference, hc]

/-- C3 witness: the general zero-baseline clause applied at the concrete
nonzero comparison `7`. -/
theorem C3_percentage_difference_zero_baseline_witness :
    calculate_percentage_difference 0 7 = PFloat.inf :=
  C3_percentage_difference_zero_baseline.2.2 7 (by norm_num)

/-- C4: `is_valid_confidence x` holds exactly when `0 ≤ x ≤ 1`, with
both boundaries accepted and the just-outside values `-0.0001` and
`1.0001` rejected. -/
theorem C4_is_valid_confidence_iff :
    (∀ x : ℚ, is_valid_confidence x = true ↔ 0 ≤ x ∧ x ≤ 1) ∧
    is_valid_confidence 0 = true ∧
    is_valid_confidence 1 = true ∧
    is_valid_confidence (-(1 / 10000)) = false ∧
    is_valid_confidence (10001 / 10000) = false := by
  refine ⟨fun x => by simp [is_valid_confidence, is_in_range], ?_, ?_, ?_, ?_⟩
  · simp [is_valid_confidence, is_in_range]
  · simp [is_valid_confidence, is_in_range]
  · simp [is_valid_confidence, is_in_range]
  · simp [is_valid_confidence, is_in_range]
    norm_num

/-- C5: `create_sales_csv` on the empty list returns exactly the header
with a trailing newline, and on the single record
`{date: "2023-10-01", sku: "SKU001", quantity: 10}` returns the header
line followed by the data line. -/
theorem C5_create_sales_csv_eval :
    create_sales_csv [] = "date,sku,quantity\n" ∧
    create_sales_csv
        [.cons "date" (vstr "2023-10-01") (.cons "sku" (vstr "SKU001") (.cons "quantity" (vint 10) .nil))] =
      "date,sku,quantity\n2023-10-01,SKU001,10" := by
  constructor
  · decide
  · decide

/-- C7: `is_valid_date_string` signals failure only through its boolean
result — it returns `true` exactly when the input with `Z` rewritten to
`+00:00` parses as an ISO-8601 date-time and `false` otherwise (the
`ValueError` raised by a failed parse is modelled by the `none` branch
and caught); sample evaluations on a valid `Z`-suffixed timestamp, a
non-date string, and a string with the right shape but an impossible
calendar day. -/
theorem C7_is_valid_date_string_boolean :
    (∀ s : String, is_valid_date_string s = true ↔ ∃ d, fromisoformat (pyReplaceZ s) = some d) ∧
    is_valid_date_string "2023-11-12T10:30:00Z" = true ∧
    is_valid_date_string "invalid-date" = false ∧
    is_valid_date_string "2023-02-30" = false := by
  refine ⟨fun s => ?_, by decide, by decide, by decide⟩
  simp [is_valid_date_string, Option.isSome_iff_exists]

/-- C2 counterexample: `mock_s3_object` is not a pure function of its
arguments. With all arguments fixed, two calls at different clock
readings return different results, because `LastModified` is
`datetime.now()`. -/
theorem C2_mock_s3_object_not_pure :
    mock_s3_object "bucket" "key" "content" 0 ≠ mock_s3_object "bucket" "key" "content" 1 := by
  decide

/-- C2 amended: each operation is a deterministic function of its
arguments, its draws and the clock reading, and the clock reading leaks
only into the clock-derived fields: `mock_s3_object` agrees across clock
readings on every field except `LastModified`, and
`sales_record_strategy` agrees across clock readings on its `sku`,
`quantity`, `category` and `price` fields (only `date` is
clock-derived). -/
theorem C2_clock_dependence_isolated :
    (∀ (b k c : String) (t t' : ℤ),
      (mock_s3_object b k c t).Bucket = (mock_s3_object b k c t').Bucket ∧
      (mock_s3_object b k c t).Key = (mock_s3_object b k c t').Key ∧
      (mock_s3_object b k c t).Body = (mock_s3_object b k c t').Body ∧
      (mock_s3_object b k c t).ContentLength = (mock_s3_object b k c t').ContentLength ∧
      (mock_s3_object b k c t).ContentType = (mock_s3_object b k c t').ContentType) ∧
    (∀ (now now' : Date) (rd : ℕ) (sku : String) (rq rc : ℕ) (rp : ℚ),
      (sales_record_strategy now rd sku rq rc rp).get? "sku" =
        (sales_record_strategy now' rd sku rq rc rp).get? "sku" ∧
      (sales_record_strategy now rd sku rq rc rp).get? "quantity" =
        (sales_record_strategy now' rd sku rq rc rp).get? "quantity" ∧
      (sales_record_strategy now rd sku rq rc rp).get? "category" =
        (sales_record_strategy now' rd sku rq rc rp).get? "category" ∧
      (sales_record_strategy now rd sku rq rc rp).get? "price" =
        (sales_record_strategy now' rd sku rq rc rp).get? "price") := by
  refine ⟨fun b k c t t' => ⟨rfl, rfl, rfl, rfl, rfl⟩, fun now now' rd sku rq rc rp => ?_⟩
  refine ⟨?_, ?_, ?_, ?_⟩ <;> simp [sales_record_strategy, PyDict.get?]

/-- Helper for C8: one conjunct of `has_required_fields` holds exactly
when the key is bound to a non-`None` value. -/
theorem hasKey_nonnull_iff (obj : PyDict) (f : String) :
    (obj.hasKey f && (obj.get? f != some vnone)) = true ↔
      ∃ v, obj.get? f = some v ∧ v ≠ vnone := by
  cases h : obj.get? f with
  | none => simp [PyDict.hasKey, h]
  | some v => simp [PyDict.hasKey, h, bne]

/-- Helper for C8: characterization of `has_required_fields`. -/
theorem has_required_fields_spec (obj : PyDict) (fields : List String) :
    has_required_fields obj fields = true ↔
      ∀ f ∈ fields, ∃ v, obj.get? f = some v ∧ v ≠ vnone := by
  simp only [has_required_fields, List.all_eq_true, hasKey_nonnull_iff]

/-- C8: `has_required_fields obj fields` returns `True` exactly when
every listed field is a key of `obj` bound to a non-`None` value — a
field that is present but bound to `None` counts as missing — and
consequently `assert_forecast_result_valid` rejects any forecast record
in which one of its required fields is bound to an explicit `None`. -/
theorem C8_has_required_fields_none :
    (∀ (obj : PyDict) (fields : List String),
      has_required_fields obj fields = true ↔
        ∀ f ∈ fields, ∃ v, obj.get? f = some v ∧ v ≠ vnone) ∧
    (∀ (forecast : PyDict) (f : String),
      f ∈ ["sku", "category", "predictions", "confidence", "methodology"] →
      forecast.get? f = some vnone →
      assert_forecast_result_valid forecast = false) := by
  refine ⟨has_required_fields_spec, fun forecast f hf hnone => ?_⟩
  have hnot : ¬ ∀ g ∈ ["sku", "category", "predictions", "confidence", "methodology"],
      ∃ v, forecast.get? g = some v ∧ v ≠ vnone := by
    intro hall
    obtain ⟨v, hv, hne⟩ := hall f hf
    rw [hnone] at hv
    exact hne (Option.some_injective _ hv).symm
  have h1 : has_required_fields forecast
      ["sku", "category", "predictions", "confidence", "methodology"] = false := by
    cases h : has_required_fields forecast
        ["sku", "category", "predictions", "confidence", "methodology"] with
    | false => rfl
    | true => exact absurd ((has_required_fields_spec _ _).mp h) hnot
  simp [assert_forecast_result_valid, h1]

/-- C8 witness: a forecast whose `confidence` field is an explicit
`None` is rejected by `assert_forecast_result_valid`. -/
theorem C8_has_required_fields_none_witness :
    assert_forecast_result_valid
      (.cons "sku" (vstr "SKU001")
        (.cons "category" (vstr "grocery")
          (.cons "predictions" (vlist .nil)
            (.cons "confidence" vnone
              (.cons "methodology" (vstr "ml") .nil))))) = false :=
  C8_has_required_fields_none.2
    (.cons "sku" (vstr "SKU001")
      (.cons "category" (vstr "grocery")
        (.cons "predictions" (vlist .nil)
          (.cons "confidence" vnone
            (.cons "methodology" (vstr "ml") .nil)))))
    "confidence" (by decide) (by decide)

/-- C9: `create_api_gateway_event` leaves the event body `None` both for
a `None` body argument and for the empty dict (Python truthiness), JSON
serializes every nonempty dict body, and the body argument influences no
other event field. -/
theorem C9_api_gateway_event_body (pp qp hd : Option (List (String × String)))
    (m p : String) :
    (create_api_gateway_event none pp qp hd m p).body = none ∧
    (create_api_gateway_event (some PyDict.nil) pp qp hd m p).body = none ∧
    (∀ d : PyDict, d ≠ PyDict.nil →
      (create_api_gateway_event (some d) pp qp hd m p).body = some (jsonDumps (vdict d))) ∧
    (∀ b1 b2 : Option PyDict,
      { create_api_gateway_event b1 pp qp hd m p with body := none } =
        { create_api_gateway_event b2 pp qp hd m p with body := none }) := by
  refine ⟨rfl, by simp [create_api_gateway_event], fun d hd' => ?_, fun b1 b2 => rfl⟩
  simp [create_api_gateway_event, hd']

/-- C9 witness: the clauses of the body characterization applied at the
concrete nonempty body `{"a": 1}` and at `None`. -/
theorem C9_api_gateway_event_body_witness :
    (create_api_gateway_event (some (.cons "a" (vint 1) .nil)) none none none "POST" "/").body =
      some "\x7b\"a\": 1\x7d" ∧
    (create_api_gateway_event none none none none "POST" "/").body = none := by
  constructor
  · rw [(C9_api_gateway_event_body none none none "POST" "/").2.2.1
      (.cons "a" (vint 1) .nil) (by decide)]
    decide
  · exact (C9_api_gateway_event_body none none none "POST" "/").1

/-- C10: `is_in_festival_period` accepts exactly the timestamps between
the festival start and the start plus `duration` days, both endpoints
included; consequently, for a festival starting at midnight of day `k`,
the midnights accepted are exactly the days `k` through
`k + duration`, which number `duration + 1`. -/
theorem C10_festival_period_inclusive (date festival_date d : ℤ) (hd : 0 ≤ d) :
    (is_in_festival_period date festival_date d = true ↔
      festival_date ≤ date ∧ date ≤ festival_date + d * usPerDay) ∧
    (∀ k c : ℤ,
      is_in_festival_period (c * usPerDay) (k * usPerDay) d = true ↔ c ∈ Finset.Icc k (k + d)) ∧
    (∀ k : ℤ, (Finset.Icc k (k + d)).card = d.toNat + 1) := by
  refine ⟨by simp [is_in_festival_period], fun k c => ?_, fun k => ?_⟩
  · simp only [is_in_festival_period, usPerDay, Bool.and_eq_true, decide_eq_true_eq,
      Finset.mem_Icc]
    omega
  · rw [Int.card_Icc]
    omega

/-- C10 witness: day 3 lies in a festival of duration 5 starting on day
1, and that festival period spans 6 calendar days. -/
theorem C10_festival_period_inclusive_witness :
    is_in_festival_period (3 * usPerDay) (1 * usPerDay) 5 = true ∧
    (Finset.Icc (1 : ℤ) (1 + 5)).card = 5 + 1 := by
  constructor
  · exact ((C10_festival_period_inclusive (3 * usPerDay) (1 * usPerDay) 5 (by decide)).2.1
      1 3).mpr (by simp)
  · have h := (C10_festival_period_inclusive 0 0 5 (by decide)).2.2 1
    rw [h]
    rfl

/-! ### Calendar and rendering lemmas (helpers for C6) -/

/-- Every month has at least one day. -/
theorem daysInMonth_pos (y m : ℕ) : 1 ≤ daysInMonth y m := by
  unfold daysInMonth
  split
  · split <;> omega
  · split <;> omega

theorem daysInMonth_le_31 (y m : ℕ) : daysInMonth y m ≤ 31 := by
  unfold daysInMonth
  split
  · split <;> omega
  · split <;> omega

theorem validDate_iff (dt : Date) :
    validDate dt = true ↔
      1 ≤ dt.year ∧ 1 ≤ dt.month ∧ dt.month ≤ 12 ∧ 1 ≤ dt.day ∧
        dt.day ≤ daysInMonth dt.year dt.month := by
  simp [validDate, and_assoc]

theorem prevDay_valid (dt : Date) (h : validDate dt = true) (hy : 2 ≤ dt.year) :
    validDate (prevDay dt) = true ∧
      dt.year - 1 ≤ (prevDay dt).year ∧ (prevDay dt).year ≤ dt.year := by
  obtain ⟨y, m, d⟩ := dt
  rw [validDate_iff] at h
  simp only at h hy
  have hpos := daysInMonth_pos y (m - 1)
  have h31 : daysInMonth (y - 1) 12 = 31 := by
    unfold daysInMonth
    norm_num
  simp only [prevDay]
  split
  · rw [validDate_iff]
    dsimp only
    omega
  · split
    · rw [validDate_iff]
      dsimp only
      omega
    · rw [validDate_iff]
      dsimp only
      omega

theorem subDays_valid (n : ℕ) (dt : Date) (h : validDate dt = true) (hy : n + 2 ≤ dt.year) :
    validDate (subDays dt n) = true ∧
      dt.year - n ≤ (subDays dt n).year ∧ (subDays dt n).year ≤ dt.year := by
  induction n generalizing dt with
  | zero =>
    simp only [subDays]
    exact ⟨h, by omega, by omega⟩
  | succ n ih =>
    have hp := prevDay_valid dt h (by omega)
    have hi := ih (prevDay dt) hp.1 (by omega)
    simp only [subDays] at hi ⊢
    exact ⟨hi.1, by omega, by omega⟩

theorem digitChar_spec (n : ℕ) :
    (digitChar n).isDigit = true ∧ digitVal (digitChar n) = n % 10 ∧ digitChar n ≠ 'Z' := by
  have h : n % 10 < 10 := Nat.mod_lt _ (by omega)
  unfold digitChar digitVal
  interval_cases h : n % 10 <;> simp_all

theorem parse2_render2 (n : ℕ) (rest : List Char) :
    parse2 (render2 n ++ rest) = some (n % 100, rest) := by
  have h1 := digitChar_spec (n / 10)
  have h2 := digitChar_spec n
  simp only [render2, List.cons_append, List.nil_append, parse2, h1.1, h2.1,
    Bool.and_self, if_true, h1.2.1, h2.2.1]
  congr 1
  congr 1
  omega

theorem parse4_render4 (n : ℕ) (rest : List Char) :
    parse4 (render4 n ++ rest) = some (n % 10000, rest) := by
  have h1 := digitChar_spec (n / 1000)
  have h2 := digitChar_spec (n / 100)
  have h3 := digitChar_spec (n / 10)
  have h4 := digitChar_spec n
  simp only [render4, List.cons_append, List.nil_append, parse4, h1.1, h2.1, h3.1, h4.1,
    Bool.and_self, if_true, h1.2.1, h2.2.1, h3.2.1, h4.2.1]
  congr 1
  congr 1
  omega

theorem parse2_render2_nil (n : ℕ) :
    parse2 (render2 n) = some (n % 100, []) := by
  have h := parse2_render2 n []
  simpa using h

theorem fromisoformat_strftime (dt : Date) (h : validDate dt = true)
    (h1 : 1000 ≤ dt.year) (h2 : dt.year ≤ 9999) :
    fromisoformat (strftimeYmd dt) = some dt := by
  obtain ⟨y, mo, dy⟩ := dt
  simp only at h1 h2
  rw [validDate_iff] at h
  simp only at h
  have hd31 := daysInMonth_le_31 y mo
  unfold fromisoformat strftimeYmd
  simp only [parse4_render4, parse2_render2, parse2_render2_nil]
  rw [Nat.mod_eq_of_lt (show y < 10000 by omega),
    Nat.mod_eq_of_lt (show mo < 100 by omega),
    Nat.mod_eq_of_lt (show dy < 100 by omega)]
  have hc : (1 ≤ y && 1 ≤ mo && mo ≤ 12 && 1 ≤ dy && dy ≤ daysInMonth y mo) = true := by
    simp only [Bool.and_eq_true, decide_eq_true_eq]
    omega
  rw [if_pos hc]

theorem pyReplaceZ_strftime (dt : Date) :
    pyReplaceZ (strftimeYmd dt) = strftimeYmd dt := by
  obtain ⟨y, m, d⟩ := dt
  have hz : ∀ n, digitChar n ≠ 'Z' := fun n => (digitChar_spec n).2.2
  simp [pyReplaceZ, strftimeYmd, render4, render2, hz]

theorem st_integers_mem (lo hi raw : ℕ) (h : lo ≤ hi) :
    lo ≤ st_integers lo hi raw ∧ st_integers lo hi raw ≤ hi := by
  unfold st_integers
  have := Nat.mod_lt raw (show 0 < hi - lo + 1 by omega)
  omega

theorem C6_sales_record_strategy_fields (now : Date) (rawDays : ℕ) (rawSku : String)
    (rawQty rawCat : ℕ) (rawPrice : ℚ)
    (hv : validDate now = true) (hy1 : 1730 ≤ now.year) (hy2 : now.year ≤ 9999) :
    (∃ q : ℤ, (sales_record_strategy now rawDays rawSku rawQty rawCat rawPrice).get? "quantity" =
        some (vint q) ∧ 1 ≤ q) ∧
    (∃ s : String, (sales_record_strategy now rawDays rawSku rawQty rawCat rawPrice).get? "date" =
        some (vstr s) ∧ is_valid_date_string s = true) := by
  constructor
  · refine ⟨st_integers 1 1000 rawQty, ?_, ?_⟩
    · simp [sales_record_strategy, PyDict.get?]
    · have := st_integers_mem 1 1000 rawQty (by omega)
      exact_mod_cast this.1
  · refine ⟨strftimeYmd (subDays now (st_integers 0 730 rawDays)), ?_, ?_⟩
    · simp [sales_record_strategy, PyDict.get?]
    · have hda := st_integers_mem 0 730 rawDays (by omega)
      have hsub := subDays_valid (st_integers 0 730 rawDays) now hv (by omega)
      unfold is_valid_date_string
      rw [pyReplaceZ_strftime,
        fromisoformat_strftime (subDays now (st_integers 0 730 rawDays)) hsub.1
          (by omega) (by omega)]
      rfl

/-- C6 witness: the properties instantiated at the clock date
2026-10-12 and a concrete draw sequence. -/
theorem C6_sales_record_strategy_fields_witness :
    (∃ q : ℤ, (sales_record_strategy ⟨2026, 10, 12⟩ 5 "SKUAB" 3 0 100).get? "quantity" =
        some (vint q) ∧ 1 ≤ q) ∧
    (∃ s : String, (sales_record_strategy ⟨2026, 10, 12⟩ 5 "SKUAB" 3 0 100).get? "date" =
        some (vstr s) ∧ is_valid_date_string s = true) :=
  C6_sales_record_strategy_fields ⟨2026, 10, 12⟩ 5 "SKUAB" 3 0 100
    (by decide) (by decide) (by decide)
